import Mathlib

/-
Verification development for the production coordinator
(src/productionCoordinator.py): the message-processing routine, the
distributed GCS lock, the staleness and targeted-delivery filters, and
the completion reporter.

Modelling conventions.
JSON values decoded by json.loads are modelled by the inductive JValue;
numbers are rationals (the claims perform no floating-point arithmetic on
them, values are only carried through and compared). A Pub/Sub message is
represented by the result of decoding its body (none when json.loads
raises) together with its optional target_vm attribute. The GCS object
store is the list of (bucket name, object path) pairs that currently
exist; the conditional upload with if_generation_match equal to zero is
the atomic create-if-absent step on this store. The external job executor
(productionJob.run_job) is a parameter returning either an output path
plus a metadata dictionary or an exception message, matching its
interface in the source. os._exit is modelled as immediate termination:
the exited field of the result records the exit status, and on those
paths the finally block (lock release) does not run, exactly as in
Python. Publishing the completion report may fail externally; the
publishOk parameter states whether publication succeeds, and the reports
field collects the records actually published.
-/

inductive JValue where
  | jnull : JValue
  | jbool : Bool → JValue
  | jnum : ℚ → JValue
  | jstr : String → JValue
  | jarr : List JValue → JValue
  | jobj : List (String × JValue) → JValue

abbrev Fields := List (String × JValue)

/-- Lookup of a key in a decoded JSON object (first binding wins). -/
def dictGet? : Fields → String → Option JValue
  | [], _ => none
  | (k, v) :: rest, key => if k = key then some v else dictGet? rest key

/-- Python dict.get with a default value. -/
def dictGetD (fields : Fields) (key : String) (d : JValue) : JValue :=
  (dictGet? fields key).getD d

/-- Python dict item assignment: replace the binding when the key exists,
    append it otherwise. -/
def dictSet (fields : Fields) (key : String) (v : JValue) : Fields :=
  if fields.any (fun kv => kv.1 == key) then
    fields.map (fun kv => if kv.1 == key then (key, v) else kv)
  else
    fields ++ [(key, v)]

/-- Python truthiness of a decoded JSON value. -/
def truthy : JValue → Bool
  | .jnull => false
  | .jbool b => b
  | .jnum q => decide (q ≠ 0)
  | .jstr s => !s.isEmpty
  | .jarr xs => !xs.isEmpty
  | .jobj fs => !fs.isEmpty

/-- Python str() of a decoded JSON value, as interpolated into f-strings
    for the lock path and the per-job work directory. String, integer,
    boolean and null renderings are exact; the renderings of non-integer
    numbers and of containers are abbreviated placeholders, since every
    claim instantiates the production ID with a string and no theorem in
    this file depends on the rendering of any other shape. -/
def pyStr : JValue → String
  | .jstr s => s
  | .jbool true => "True"
  | .jbool false => "False"
  | .jnull => "None"
  | .jnum q => if q.den = 1 then toString q.num else "<float>"
  | .jarr _ => "<list>"
  | .jobj _ => "<dict>"

/-- dict.get called on an arbitrary value: only dictionaries have get,
    every other value raises AttributeError. -/
def pyGetAttrGet : JValue → String → JValue → Except String JValue
  | .jobj fields, key, d => .ok (dictGetD fields key d)
  | _, _, _ => .error "AttributeError"

/-- Python subscript [0]: first element of a list, first character of a
    string (as a one-character string), IndexError when empty, TypeError
    on non-sequences. -/
def jIndex0 : JValue → Except String JValue
  | .jarr (x :: _) => .ok x
  | .jarr [] => .error "IndexError"
  | .jstr s =>
      match s.toList with
      | c :: _ => .ok (.jstr (String.mk [c]))
      | [] => .error "IndexError"
  | _ => .error "TypeError"

/-- A value usable on the right of float subtraction: numbers, and
    booleans (Python bool is numeric). Everything else raises TypeError. -/
def jNumeric : JValue → Option ℚ
  | .jnum q => some q
  | .jbool b => some (if b then 1 else 0)
  | _ => none

/-- Python str.strip() restricted to ASCII whitespace. -/
def pyIsSpace (c : Char) : Bool :=
  c == ' ' || c == '\t' || c == '\n' || c == '\r' || c == '\x0B' || c == '\x0C'

def pyStrip (s : String) : String :=
  String.mk (((s.toList.dropWhile pyIsSpace).reverse.dropWhile pyIsSpace).reverse)

/-- Python str.lower() restricted to ASCII letters. -/
def pyLower (s : String) : String :=
  String.mk (s.toList.map Char.toLower)

/-- The isLeftHand coercion of process_message lines 178 to 183: a string
    is compared against "true" after strip and lower, anything else is
    coerced by bool(), a missing key defaults to False. -/
def parse_is_left_hand (fields : Fields) : Bool :=
  match dictGetD fields "isLeftHand" (.jbool false) with
  | .jstr s => pyLower (pyStrip s) == "true"
  | v => truthy v

/-- The GCS object store: the set of (bucket name, object path) pairs
    that currently exist, as a list. -/
abbrev Store := List (String × String)

/-- The lock object path, f-string locks/ productionId .lock. -/
def lockPath (production_id : JValue) : String :=
  "locks/" ++ pyStr production_id ++ ".lock"

/-- acquire_gcs_lock: one atomic conditional create (upload with
    if_generation_match equal to zero). It succeeds, inserting the lock
    object, exactly when the object does not yet exist; otherwise the
    server rejects the write with PreconditionFailed, modelled as error. -/
def acquire_gcs_lock (store : Store) (bucket_name : String)
    (production_id : JValue) : Except Unit (Store × String) :=
  if (bucket_name, lockPath production_id) ∈ store then
    .error ()
  else
    .ok ((bucket_name, lockPath production_id) :: store, lockPath production_id)

/-- release_gcs_lock: best-effort delete of the lock object; a failing
    delete (for example of an absent object) is swallowed, so the result
    is simply the store without that object. -/
def release_gcs_lock (store : Store) (bucket_name : String)
    (lock_path : String) : Store :=
  store.filter (fun e => e ≠ (bucket_name, lock_path))

/-- Worker identity resolution, process_message lines 119 to 121: a
    missing, empty or unknown WORKER_ID environment value falls back to
    the instance name fetched from the metadata server (which is itself
    the string unknown when that query fails). -/
def resolve_identity (workerIdEnv : Option String) (instanceName : String) :
    String :=
  match workerIdEnv with
  | none => instanceName
  | some w => if w = "" ∨ w = "unknown" then instanceName else w

/-- The targeted-delivery condition of process_message line 128: a
    non-empty target_vm attribute differing from the resolved identity. -/
def target_mismatch (tv : Option String) (my_worker_id : String) : Bool :=
  match tv with
  | some t => (t != "") && (t != my_worker_id)
  | none => false

/-- One delivered Pub/Sub message: the result of json.loads on its body
    (none when decoding raises) and its optional target_vm attribute. -/
structure PubSubMessage where
  decoded : Option JValue
  target_vm : Option String

inductive AckD where
  | ack : AckD
  | nack : AckD
deriving DecidableEq

/-- The outbound completion record built by report_completion. -/
structure Report where
  productionId : JValue
  status : String
  outputKey : JValue
  error : Option String
  duration : JValue
  orientation : JValue

/-- The observable outcome of handling one delivery: the final object
    store, the acknowledgement disposition, the completion reports
    actually published, how many times the job executor ran, the exit
    status when os._exit terminated the process (none when the routine
    returned normally), and how many times cleanup_subscription ran. -/
structure ProcResult where
  store : Store
  ackD : AckD
  reports : List Report
  execCalls : Nat
  exited : Option Nat
  cleanups : Nat

def nackResult (store : Store) : ProcResult :=
  ⟨store, .nack, [], 0, none, 0⟩

/-- The body of report_completion that builds result_data, in evaluation
    order: productionId via get with default UNKNOWN, outputKey as
    outputs (default a one-element list of the empty string) indexed at
    zero, the error message, then duration and orientation via get with
    defaults. Any step may raise. -/
def buildReport (payload : JValue) (status0 : String)
    (error_msg : Option String) : Except String Report :=
  match pyGetAttrGet payload "productionId" (.jstr "UNKNOWN") with
  | .error e => .error e
  | .ok prod_id =>
    match pyGetAttrGet payload "outputs" (.jarr [.jstr ""]) with
    | .error e => .error e
    | .ok outs =>
      match jIndex0 outs with
      | .error e => .error e
      | .ok key =>
        match pyGetAttrGet payload "duration" (.jnum 0) with
        | .error e => .error e
        | .ok dur =>
          match pyGetAttrGet payload "orientation" (.jstr "UNKNOWN") with
          | .error e => .error e
          | .ok orient => .ok ⟨prod_id, status0, key, error_msg, dur, orient⟩

/-- report_completion: every exception while building or publishing the
    record is caught and only logged, so the caller always gets a plain
    list of the records actually delivered (empty when building or
    publication failed). -/
def report_completion (publishOk : Bool) (status0 : String)
    (payload : JValue) (error_msg : Option String) : List Report :=
  match buildReport payload status0 error_msg with
  | .error _ => []
  | .ok r => if publishOk then [r] else []

/-- cleanup_subscription deletes the subscription only when its id
    contains the temporary naming marker sub-collab-. Only the decision
    bit is modelled; no claim observes the subscription itself. -/
def listHasInfix : List Char → List Char → Bool
  | needle, [] => needle.isEmpty
  | needle, c :: rest => needle.isPrefixOf (c :: rest) || listHasInfix needle rest

def cleanup_subscription_deletes (subscription_id : String) : Bool :=
  listHasInfix "sub-collab-".toList subscription_id.toList

/-- The except branch of process_message (lines 211 to 233) followed by
    the finally block (lines 235 to 240): report FAILED when a truthy
    payload was parsed, acknowledge, run cleanup_subscription, then in
    single_task mode call os._exit(1) - which terminates the process at
    once, so the finally block never runs and a held lock stays in the
    store - and otherwise fall through to the finally block, which
    releases the lock when one was acquired. -/
def exceptPath (mode : String) (publishOk : Bool) (store : Store)
    (payload : Option JValue) (emsg : String)
    (lock : Option (String × String)) (ec : Nat) : ProcResult :=
  if mode = "single_task" then
    ⟨store, .ack,
      (match payload with
       | some p =>
           if truthy p then report_completion publishOk "FAILED" p (some emsg)
           else []
       | none => []),
      ec, some 1, 1⟩
  else
    ⟨(match lock with
      | some bp => release_gcs_lock store bp.1 bp.2
      | none => store), .ack,
      (match payload with
       | some p =>
           if truthy p then report_completion publishOk "FAILED" p (some emsg)
           else []
       | none => []),
      ec, none, 1⟩

/-- The executor interface of productionJob.run_job as invoked at lines
    185 to 192: bucket_name, input_specs, output_gcs_paths, workdir_str,
    production_type and is_left_hand, returning an output path and a
    metadata dictionary, or raising with a message. The executor is the
    external rendering collaborator and is a parameter of the model. -/
abbrev Executor :=
  JValue → JValue → JValue → String → JValue → Bool →
    Except String (String × Fields)

/-- process_message, lines 113 to 240. Identity is resolved, the
    targeted-delivery check may negative-acknowledge, then the try block
    decodes the payload, reads productionId and bucket, acquires the
    lock (acknowledging and returning on contention), runs the executor,
    merges the returned metadata into the payload, reports COMPLETED and
    acknowledges; any exception is handled by the except branch, which
    reports FAILED and acknowledges; the finally block releases a held
    lock unless os._exit already terminated the process. -/
def process_message (mode : String) (workerIdEnv : Option String)
    (instanceName : String) (ex : Executor) (publishOk : Bool)
    (msg : PubSubMessage) (store : Store) : ProcResult :=
  if target_mismatch msg.target_vm (resolve_identity workerIdEnv instanceName)
  then nackResult store
  else
    match msg.decoded with
    | none => exceptPath mode publishOk store none "ValueError" none 0
    | some (.jobj fields) =>
      match dictGet? fields "productionId" with
      | none =>
          exceptPath mode publishOk store (some (.jobj fields))
            "KeyError: productionId" none 0
      | some production_id =>
        match dictGet? fields "bucket" with
        | none =>
            exceptPath mode publishOk store (some (.jobj fields))
              "KeyError: bucket" none 0
        | some (.jstr bucket_name) =>
          match acquire_gcs_lock store bucket_name production_id with
          | .error _ => ⟨store, .ack, [], 0, none, 0⟩
          | .ok (store1, lock_path) =>
            match ex (.jstr bucket_name)
                (dictGetD fields "inputs" (.jarr []))
                (dictGetD fields "outputs" (.jarr []))
                ("/workspace/jobs/" ++ pyStr production_id)
                (dictGetD fields "type" (.jstr "multi_view"))
                (parse_is_left_hand fields) with
            | .error emsg =>
                exceptPath mode publishOk store1 (some (.jobj fields)) emsg
                  (some (bucket_name, lock_path)) 1
            | .ok (_out, metadata) =>
                if mode = "single_task" then
                  ⟨store1, .ack,
                    report_completion publishOk "COMPLETED"
                      (.jobj (dictSet
                        (dictSet fields "duration"
                          (dictGetD metadata "duration" (.jnum 0)))
                        "orientation"
                        (dictGetD metadata "orientation" (.jstr "unknown"))))
                      none,
                    1, some 0, 1⟩
                else
                  ⟨release_gcs_lock store1 bucket_name lock_path, .ack,
                    report_completion publishOk "COMPLETED"
                      (.jobj (dictSet
                        (dictSet fields "duration"
                          (dictGetD metadata "duration" (.jnum 0)))
                        "orientation"
                        (dictGetD metadata "orientation" (.jstr "unknown"))))
                      none,
                    1, none, 1⟩
        | some _ =>
            exceptPath mode publishOk store (some (.jobj fields))
              "TypeError: bucket" none 0
    | some other =>
        exceptPath mode publishOk store (some other) "TypeError" none 0

/-- The staleness decision of safe_process_callback lines 259 to 265:
    the embedded timestamp (milliseconds, defaulting to now when the key
    is missing) is subtracted from now; none models the TypeError raised
    when the value is not numeric, otherwise the message is stale exactly
    when its age strictly exceeds 1200000 milliseconds. -/
def staleDecision (nowMs : ℚ) (fields : Fields) : Option Bool :=
  match jNumeric (dictGetD fields "timestamp" (.jnum nowMs)) with
  | none => none
  | some ts => some (decide (nowMs - ts > 1200000))

/-- safe_process_callback, lines 246 to 279: decode the body to check
    the embedded timestamp, acknowledging and discarding stale messages,
    forwarding fresh ones to process_message, and negative-acknowledging
    when decoding or the age computation raises. -/
def safe_process_callback (nowMs : ℚ) (mode : String)
    (workerIdEnv : Option String) (instanceName : String) (ex : Executor)
    (publishOk : Bool) (msg : PubSubMessage) (store : Store) : ProcResult :=
  match msg.decoded with
  | some (.jobj fields) =>
    match staleDecision nowMs fields with
    | some true => ⟨store, .ack, [], 0, none, 0⟩
    | some false =>
        process_message mode workerIdEnv instanceName ex publishOk msg store
    | none => nackResult store
  | some _ => nackResult store
  | none => nackResult store

/-- A concrete executor that raises with the given message; stands in
    for the external collaborator in concrete scenarios. -/
def execRaises (m : String) : Executor := fun _ _ _ _ _ _ => .error m

/-- A concrete executor that succeeds with the given output path and
    metadata dictionary. -/
def execReturns (out : String) (md : Fields) : Executor :=
  fun _ _ _ _ _ _ => .ok (out, md)

/-- Inversion of a successful lock acquisition: the new store is the old
    one with the lock object inserted, the returned path is the lock
    path, and the lock object was absent before. -/
theorem acquire_ok_inv {store : Store} {b : String} {pid : JValue}
    {s1 : Store} {p : String}
    (h : acquire_gcs_lock store b pid = .ok (s1, p)) :
    s1 = (b, lockPath pid) :: store ∧ p = lockPath pid ∧
      (b, lockPath pid) ∉ store := by
  unfold acquire_gcs_lock at h
  split at h
  · exact Except.noConfusion h
  · next hmem =>
    injection h with h1
    refine ⟨?_, ?_, hmem⟩
    · exact (congrArg Prod.fst h1).symm
    · exact (congrArg Prod.snd h1).symm

/-- Releasing a lock that was just created on top of a store not holding
    it restores exactly the original store. -/
theorem release_insert {store : Store} {b p : String}
    (h : (b, p) ∉ store) :
    release_gcs_lock ((b, p) :: store) b p = store := by
  unfold release_gcs_lock
  rw [List.filter_cons_of_neg]
  · refine List.filter_eq_self.mpr ?_
    intro e he
    simp only [ne_eq, decide_eq_true_eq]
    rintro rfl
    exact h he
  · simp

/-- When publication fails, no record is delivered. -/
theorem report_completion_pub_false (s : String) (p : JValue)
    (e : Option String) : report_completion false s p e = [] := by
  unfold report_completion
  split
  · rfl
  · rfl

/-- Every field of a successfully built report other than the payload
    data comes from the arguments: status and error are passed through. -/
theorem buildReport_ok_fields {p : JValue} {s : String} {e : Option String}
    {r : Report} (h : buildReport p s e = .ok r) :
    r.status = s ∧ r.error = e := by
  unfold buildReport at h
  split at h
  · exact Except.noConfusion h
  · split at h
    · exact Except.noConfusion h
    · split at h
      · exact Except.noConfusion h
      · split at h
        · exact Except.noConfusion h
        · split at h
          · exact Except.noConfusion h
          · injection h with h1
            rw [← h1]
            exact ⟨rfl, rfl⟩

/-- Any record delivered by report_completion carries the requested
    status and error message. -/
theorem report_completion_mem {pub : Bool} {s : String} {p : JValue}
    {e : Option String} {rep : Report}
    (h : rep ∈ report_completion pub s p e) :
    rep.status = s ∧ rep.error = e := by
  unfold report_completion at h
  split at h
  · exact absurd h (List.not_mem_nil rep)
  · next r heq =>
    split at h
    · rw [List.mem_singleton.mp h]
      exact buildReport_ok_fields heq
    · exact absurd h (List.not_mem_nil rep)

/-- The except branch always positively acknowledges. -/
theorem exceptPath_ackD (m : String) (pub : Bool) (st : Store)
    (p : Option JValue) (e : String) (l : Option (String × String))
    (ec : Nat) : (exceptPath m pub st p e l ec).ackD = .ack := by
  unfold exceptPath
  split
  · rfl
  · rfl

/-- C3: acquisition of the lock for a production ID is one atomic
    create-if-absent of the object locks/ productionId .lock. Starting
    from any store in which that object is absent, an acquire attempt
    succeeds and inserts the object, and a second attempt serialized
    after any successful one observes the PreconditionFailed rejection
    (LockContention); hence of two concurrent attempts, which the atomic
    conditional write serializes in one of the two symmetric orders,
    exactly one succeeds and the other observes LockContention. -/
theorem lock_acquire_exactly_one (store : Store) (b : String) (pid : JValue)
    (h : (b, lockPath pid) ∉ store) :
    acquire_gcs_lock store b pid =
      .ok ((b, lockPath pid) :: store, lockPath pid) ∧
    ∀ s1 p1, acquire_gcs_lock store b pid = .ok (s1, p1) →
      acquire_gcs_lock s1 b pid = .error () := by
  refine ⟨?_, ?_⟩
  · unfold acquire_gcs_lock
    rw [if_neg h]
  · intro s1 p1 hok
    obtain ⟨hs, _, _⟩ := acquire_ok_inv hok
    subst hs
    unfold acquire_gcs_lock
    rw [if_pos (List.mem_cons_self _ _)]

/-- Witness for C3 at a concrete bucket and production ID. -/
theorem lock_acquire_exactly_one_witness :
    acquire_gcs_lock [] "b" (.jstr "P1") =
      .ok ([("b", "locks/P1.lock")], "locks/P1.lock") ∧
    acquire_gcs_lock [("b", "locks/P1.lock")] "b" (.jstr "P1") =
      .error () := by
  have h := lock_acquire_exactly_one [] "b" (.jstr "P1")
    (List.not_mem_nil _)
  exact ⟨h.1, h.2 _ _ h.1⟩

/-- C8: the end-to-end success scenario. For the descriptor with
    productionId P1, bucket b and outputs [out.mp4], an executor
    returning metadata duration 12.5 and orientation portrait, and a
    successful publication, the routine publishes exactly the report
    with productionId P1, status COMPLETED, outputKey out.mp4 (the first
    element of outputs), error null, duration 12.5 and orientation
    portrait, positively acknowledges, and (in loop mode) releases the
    lock it created. -/
theorem success_report_scenario :
    process_message "loop" (some "me") "me"
      (execReturns "/tmp/out.mp4"
        [("duration", .jnum 12.5), ("orientation", .jstr "portrait")]) true
      ⟨some (.jobj [("productionId", .jstr "P1"), ("bucket", .jstr "b"),
        ("inputs", .jarr []), ("outputs", .jarr [.jstr "out.mp4"])]),
        none⟩ [] =
    ⟨[], .ack,
      [⟨.jstr "P1", "COMPLETED", .jstr "out.mp4", none, .jnum 12.5,
        .jstr "portrait"⟩],
      1, none, 1⟩ := rfl

/-- C10: interpretation of the isLeftHand flag. A string value yields
    true exactly when it equals the string true after stripping
    surrounding whitespace and lowercasing; any non-string value is
    coerced by Python truthiness; a missing key yields false. -/
theorem is_left_hand_parsing (fields : Fields) :
    (∀ s, dictGet? fields "isLeftHand" = some (.jstr s) →
      (parse_is_left_hand fields = true ↔ pyLower (pyStrip s) = "true")) ∧
    (∀ v, dictGet? fields "isLeftHand" = some v →
      (∀ s, v ≠ .jstr s) → parse_is_left_hand fields = truthy v) ∧
    (dictGet? fields "isLeftHand" = none →
      parse_is_left_hand fields = false) := by
  refine ⟨?_, ?_, ?_⟩
  · intro s h
    unfold parse_is_left_hand dictGetD
    rw [h]
    simp
  · intro v h hv
    unfold parse_is_left_hand dictGetD
    rw [h]
    cases v
    case jstr s => exact absurd rfl (hv s)
    all_goals rfl
  · intro h
    unfold parse_is_left_hand dictGetD
    rw [h]
    rfl

/-- Witness for C10: the string True (capitalised) is interpreted as a
    true handedness flag. -/
theorem is_left_hand_parsing_witness :
    parse_is_left_hand [("isLeftHand", .jstr "True")] = true :=
  ((is_left_hand_parsing [("isLeftHand", .jstr "True")]).1 "True" rfl).mpr
    rfl

/-- C4: when the lock object for the production ID already exists, the
    routine positively acknowledges, publishes no completion report,
    never invokes the executor, leaves the store untouched and returns
    normally without error. -/
theorem lock_contention_skips (mode : String) (wid : Option String)
    (inst : String) (ex : Executor) (pub : Bool) (msg : PubSubMessage)
    (store : Store) (fields : Fields) (pid : JValue) (bname : String)
    (hd : msg.decoded = some (.jobj fields))
    (ht : ∀ t, msg.target_vm = some t →
      t = "" ∨ t = resolve_identity wid inst)
    (hp : dictGet? fields "productionId" = some pid)
    (hb : dictGet? fields "bucket" = some (.jstr bname))
    (hlock : (bname, lockPath pid) ∈ store) :
    process_message mode wid inst ex pub msg store =
      ⟨store, .ack, [], 0, none, 0⟩ := by
  have htm : target_mismatch msg.target_vm (resolve_identity wid inst)
      = false := by
    cases h2 : msg.target_vm with
    | none => rfl
    | some t =>
      rcases ht t h2 with h3 | h3 <;>
        simp [target_mismatch, h3]
  have hacq : acquire_gcs_lock store bname pid = .error () := by
    unfold acquire_gcs_lock
    rw [if_pos hlock]
  unfold process_message
  simp only [htm, hd, hp, hb, hacq, Bool.false_eq_true, if_false]

/-- Witness for C4 at a concrete contended lock. -/
theorem lock_contention_skips_witness :
    process_message "loop" (some "me") "me" (execRaises "x") true
      ⟨some (.jobj [("productionId", .jstr "P1"),
        ("bucket", .jstr "b")]), none⟩
      [("b", "locks/P1.lock")] =
      ⟨[("b", "locks/P1.lock")], .ack, [], 0, none, 0⟩ :=
  lock_contention_skips "loop" (some "me") "me" (execRaises "x") true
    _ _ _ _ _ rfl (fun _ h => nomatch h) rfl rfl
    (List.mem_singleton.mpr rfl)

/-- If the except branch ran with no lock held and did not exit the
    process, it leaves the store untouched. -/
theorem exceptPath_none_store (m : String) (pub : Bool) (st : Store)
    (p : Option JValue) (e : String) (ec : Nat) :
    (exceptPath m pub st p e none ec).exited = none →
    (exceptPath m pub st p e none ec).store = st := by
  unfold exceptPath
  split
  · intro h
    exact absurd h (by simp)
  · intro _
    rfl

/-- If the except branch ran while holding a lock and did not exit the
    process, the finally block released that lock. -/
theorem exceptPath_lock_store (m : String) (pub : Bool) (st : Store)
    (p : Option JValue) (e : String) (b pth : String) (ec : Nat) :
    (exceptPath m pub st p e (some (b, pth)) ec).exited = none →
    (exceptPath m pub st p e (some (b, pth)) ec).store =
      release_gcs_lock st b pth := by
  unfold exceptPath
  split
  · intro h
    exact absurd h (by simp)
  · intro _
    rfl

/-- Whenever process_message returns normally (no os._exit), the store
    it leaves behind is exactly the store it started from: a lock it
    created has been released again, and a pre-existing lock (in
    particular the contended lock of another worker) is untouched. -/
theorem process_message_completes_store (mode : String)
    (wid : Option String) (inst : String) (ex : Executor) (pub : Bool)
    (msg : PubSubMessage) (store : Store) :
    (process_message mode wid inst ex pub msg store).exited = none →
    (process_message mode wid inst ex pub msg store).store = store := by
  unfold process_message
  split
  · intro _
    rfl
  · split
    · apply exceptPath_none_store
    · split
      · apply exceptPath_none_store
      · split
        · apply exceptPath_none_store
        · split
          · intro _
            rfl
          · rename_i store1 lock_path heq
            obtain ⟨h1, h2, h3⟩ := acquire_ok_inv heq
            subst h1
            subst h2
            split
            · intro hx
              rw [exceptPath_lock_store _ _ _ _ _ _ _ _ hx]
              exact release_insert h3
            · split
              · intro hx
                exact absurd hx (by simp)
              · intro _
                exact release_insert h3
        · apply exceptPath_none_store
    · apply exceptPath_none_store

/-- C1 as amended: for every delivered message on which the processing
    routine returns normally (in loop mode the success, failure and
    contention-skip paths; in single_task mode the contention-skip and
    pre-lock paths), the store afterwards equals the store before: no
    lock object locks/ productionId .lock created by this run remains,
    and on a contention-skip the pre-existing lock object of the other
    worker is not deleted. The single_task success and failure paths are
    excluded because they terminate the process through os._exit inside
    try/except, before the finally release, leaving the created lock
    orphaned; the counterexample below exhibits the concrete violation
    of the original claim. -/
theorem no_orphaned_lock_on_completion (now : ℚ) (mode : String)
    (wid : Option String) (inst : String) (ex : Executor) (pub : Bool)
    (msg : PubSubMessage) (store : Store)
    (h : (safe_process_callback now mode wid inst ex pub msg store).exited
      = none) :
    (safe_process_callback now mode wid inst ex pub msg store).store
      = store := by
  revert h
  unfold safe_process_callback
  split
  · split
    · intro _
      rfl
    · exact process_message_completes_store mode wid inst ex pub msg store
    · intro _
      rfl
  · intro _
    rfl
  · intro _
    rfl

/-- Witness for C1: a completing loop-mode success run started from an
    empty store ends with an empty store. -/
theorem no_orphaned_lock_on_completion_witness :
    (safe_process_callback 0 "loop" (some "me") "me"
      (execReturns "/tmp/o" []) true
      ⟨some (.jobj [("timestamp", .jnum 0), ("productionId", .jstr "P1"),
        ("bucket", .jstr "b")]), none⟩ []).store = [] :=
  no_orphaned_lock_on_completion 0 "loop" (some "me") "me"
    (execReturns "/tmp/o" []) true
    ⟨some (.jobj [("timestamp", .jnum 0), ("productionId", .jstr "P1"),
      ("bucket", .jstr "b")]), none⟩ []
    (by
      have h : staleDecision 0 [("timestamp", .jnum 0),
          ("productionId", .jstr "P1"), ("bucket", .jstr "b")]
          = some false := by
        simp [staleDecision, dictGetD, dictGet?, jNumeric]
      unfold safe_process_callback
      dsimp only
      rw [h]
      rfl)

/-- C2 counterexample: two delivered messages whose target_vm attribute
    differs from the resolved worker identity (me) and that the handler
    nevertheless does not negative-acknowledge. First, a message
    targeted at other whose embedded timestamp makes it stale is
    positively acknowledged by the wrapper: the stale filter runs before
    the targeted-delivery filter, not after. Second, a fresh message
    whose target_vm is the empty string (which also differs from me) is
    processed instead of negative-acknowledged, because the truthiness
    test of line 128 treats an empty attribute as absent: here it
    proceeds to lock acquisition, hits contention and is positively
    acknowledged. -/
theorem targeted_mismatch_counterexample :
    (safe_process_callback 1300001 "loop" (some "me") "me"
      (execRaises "x") true
      ⟨some (.jobj [("timestamp", .jnum 0), ("productionId", .jstr "P1"),
        ("bucket", .jstr "b")]), some "other"⟩ []).ackD = .ack ∧
    (safe_process_callback 0 "loop" (some "me") "me"
      (execRaises "x") true
      ⟨some (.jobj [("timestamp", .jnum 0), ("productionId", .jstr "P1"),
        ("bucket", .jstr "b")]), some ""⟩
      [("b", "locks/P1.lock")]).ackD = .ack := by
  constructor
  · have h : staleDecision 1300001 [("timestamp", .jnum 0),
        ("productionId", .jstr "P1"), ("bucket", .jstr "b")]
        = some true := by
      norm_num [staleDecision, dictGetD, dictGet?, jNumeric]
    unfold safe_process_callback
    dsimp only
    rw [h]
  · have h : staleDecision 0 [("timestamp", .jnum 0),
        ("productionId", .jstr "P1"), ("bucket", .jstr "b")]
        = some false := by
      norm_num [staleDecision, dictGetD, dictGet?, jNumeric]
    unfold safe_process_callback
    dsimp only
    rw [h]
    rfl

/-- C2 as amended: for every delivered message carrying a non-empty
    target_vm attribute that differs from the resolved worker identity
    and that is not discarded as stale by the wrapper, the handler
    negative-acknowledges and neither acquires any lock, invokes the
    executor, nor publishes a report. Both qualifiers are forced by the
    counterexample: the Stale Message Filter runs first, so a stale
    mismatched message is positively acknowledged instead, and an empty
    target_vm attribute is treated as absent by the truthiness test, so
    such a message is processed rather than negative-acknowledged. -/
theorem targeted_mismatch_fresh_nack (now : ℚ) (mode : String)
    (wid : Option String) (inst : String) (ex : Executor) (pub : Bool)
    (msg : PubSubMessage) (store : Store) (t : String)
    (ht : msg.target_vm = some t) (hne : t ≠ "")
    (hid : t ≠ resolve_identity wid inst)
    (hfresh : ∀ fields, msg.decoded = some (.jobj fields) →
      staleDecision now fields ≠ some true) :
    safe_process_callback now mode wid inst ex pub msg store =
      nackResult store := by
  unfold safe_process_callback
  cases hdec : msg.decoded with
  | none => rfl
  | some v =>
    cases v with
    | jobj fields =>
      dsimp only
      cases hsd : staleDecision now fields with
      | none => rfl
      | some b =>
        cases b with
        | true => exact absurd hsd (hfresh fields hdec)
        | false =>
          have htm : target_mismatch msg.target_vm
              (resolve_identity wid inst) = true := by
            rw [ht]
            simp only [target_mismatch, Bool.and_eq_true, bne_iff_ne,
              ne_eq]
            exact ⟨hne, hid⟩
          unfold process_message
          rw [htm]
          rfl
    | jnull => rfl
    | jbool b2 => rfl
    | jnum q => rfl
    | jstr s => rfl
    | jarr xs => rfl

/-- Witness for the amended C2: a fresh decodable message targeted at
    other while this worker is me flows through the stale check into the
    targeted-delivery branch of process_message and is negative-
    acknowledged with nothing else done. -/
theorem targeted_mismatch_fresh_nack_witness :
    safe_process_callback 0 "loop" (some "me") "me" (execRaises "x") true
      ⟨some (.jobj [("timestamp", .jnum 0)]), some "other"⟩ [] =
      nackResult [] :=
  targeted_mismatch_fresh_nack 0 "loop" (some "me") "me" (execRaises "x")
    true ⟨some (.jobj [("timestamp", .jnum 0)]), some "other"⟩ []
    "other" rfl (by decide) (by decide)
    (fun fields h => by
      injection h with h3
      injection h3 with h4
      subst h4
      have h5 : staleDecision 0 [("timestamp", .jnum 0)] = some false := by
        norm_num [staleDecision, dictGetD, dictGet?, jNumeric]
      rw [h5]
      simp)

/-- C6: staleness classification and handling. For a message whose body
    decodes to an object: when the timestamp field holds a numeric value
    q, the message is discarded as stale - positively acknowledged with
    the executor never invoked, no lock touched and nothing published -
    exactly when now minus q strictly exceeds 1200000 milliseconds, and
    otherwise it is handed unchanged to process_message; when the
    timestamp field is absent, the timestamp defaults to now, so the
    message is never stale and is always handed to process_message. -/
theorem stale_filter_spec (now : ℚ) (mode : String) (wid : Option String)
    (inst : String) (ex : Executor) (pub : Bool) (msg : PubSubMessage)
    (store : Store) (fields : Fields)
    (hd : msg.decoded = some (.jobj fields)) :
    (∀ v q, dictGet? fields "timestamp" = some v → jNumeric v = some q →
      ((now - q > 1200000 →
        safe_process_callback now mode wid inst ex pub msg store =
          ⟨store, .ack, [], 0, none, 0⟩) ∧
       (¬ now - q > 1200000 →
        safe_process_callback now mode wid inst ex pub msg store =
          process_message mode wid inst ex pub msg store))) ∧
    (dictGet? fields "timestamp" = none →
      safe_process_callback now mode wid inst ex pub msg store =
        process_message mode wid inst ex pub msg store) := by
  constructor
  · intro v q hv hq
    have hsd : staleDecision now fields =
        some (decide (now - q > 1200000)) := by
      unfold staleDecision dictGetD
      rw [hv]
      dsimp only [Option.getD]
      rw [hq]
    constructor
    · intro hgt
      unfold safe_process_callback
      rw [hd]
      dsimp only
      rw [hsd, decide_eq_true hgt]
    · intro hle
      unfold safe_process_callback
      rw [hd]
      dsimp only
      rw [hsd, decide_eq_false hle]
  · intro hnone
    have hsd : staleDecision now fields = some false := by
      unfold staleDecision dictGetD
      rw [hnone]
      dsimp only [Option.getD, jNumeric]
      have h0 : ¬ now - now > 1200000 := by
        rw [sub_self]
        norm_num
      rw [decide_eq_false h0]
    unfold safe_process_callback
    rw [hd]
    dsimp only
    rw [hsd]

/-- Witness for C6: a message 1300001 milliseconds older than now is
    discarded as stale. -/
theorem stale_filter_spec_witness :
    safe_process_callback 1300001 "loop" (some "me") "me"
      (execRaises "x") true
      ⟨some (.jobj [("timestamp", .jnum 0)]), none⟩ [] =
      ⟨[], .ack, [], 0, none, 0⟩ :=
  ((stale_filter_spec 1300001 "loop" (some "me") "me" (execRaises "x")
      true ⟨some (.jobj [("timestamp", .jnum 0)]), none⟩ []
      [("timestamp", .jnum 0)] rfl).1 (.jnum 0) 0 rfl rfl).1
    (by norm_num)

/-- A message whose target attribute is absent, empty, or equal to the
    resolved identity passes the targeted-delivery check. -/
theorem target_mismatch_false {msg : PubSubMessage} {wid : Option String}
    {inst : String}
    (ht : ∀ t, msg.target_vm = some t →
      t = "" ∨ t = resolve_identity wid inst) :
    target_mismatch msg.target_vm (resolve_identity wid inst) = false := by
  cases h2 : msg.target_vm with
  | none => rfl
  | some t =>
    rcases ht t h2 with h3 | h3 <;> simp [target_mismatch, h3]

/-- C5 counterexample: the payload decodes successfully (productionId
    P1, bucket b, outputs an empty list) and the executor raises, yet no
    FAILED completion report is published at all: building the report
    indexes outputs at zero, which raises inside report_completion and
    is swallowed. The message is still positively acknowledged. -/
theorem exec_failure_empty_outputs_unreported :
    process_message "loop" (some "me") "me" (execRaises "encoder crashed")
      true
      ⟨some (.jobj [("productionId", .jstr "P1"), ("bucket", .jstr "b"),
        ("outputs", .jarr [])]), none⟩ [] =
      ⟨[], .ack, [], 1, none, 1⟩ := rfl

/-- C5 as amended: when the decoded payload reaches the executor and the
    executor raises, the routine hands the payload to report_completion
    with status FAILED and the exception message as the error - so
    whatever record is published is that FAILED record - and positively
    acknowledges regardless of whether the report could be built or
    published; an execution failure is never negative-acknowledged. (The
    record fails to be built, and nothing is published, exactly when
    report_completion itself raises internally, for example when outputs
    is present but empty.) -/
theorem exec_failure_failed_report_and_ack (mode : String)
    (wid : Option String) (inst : String) (ex : Executor) (pub : Bool)
    (msg : PubSubMessage) (store : Store) (fields : Fields) (pid : JValue)
    (bname : String) (emsg : String)
    (hd : msg.decoded = some (.jobj fields))
    (ht : ∀ t, msg.target_vm = some t →
      t = "" ∨ t = resolve_identity wid inst)
    (hp : dictGet? fields "productionId" = some pid)
    (hb : dictGet? fields "bucket" = some (.jstr bname))
    (hnl : (bname, lockPath pid) ∉ store)
    (hex : ex (.jstr bname) (dictGetD fields "inputs" (.jarr []))
      (dictGetD fields "outputs" (.jarr []))
      ("/workspace/jobs/" ++ pyStr pid)
      (dictGetD fields "type" (.jstr "multi_view"))
      (parse_is_left_hand fields) = .error emsg) :
    (process_message mode wid inst ex pub msg store).ackD = .ack ∧
    (process_message mode wid inst ex pub msg store).execCalls = 1 ∧
    (process_message mode wid inst ex pub msg store).reports =
      report_completion pub "FAILED" (.jobj fields) (some emsg) ∧
    ∀ rep, rep ∈ (process_message mode wid inst ex pub msg store).reports →
      rep.status = "FAILED" ∧ rep.error = some emsg := by
  have hacq : acquire_gcs_lock store bname pid =
      .ok ((bname, lockPath pid) :: store, lockPath pid) := by
    unfold acquire_gcs_lock
    rw [if_neg hnl]
  have hred : process_message mode wid inst ex pub msg store =
      exceptPath mode pub ((bname, lockPath pid) :: store)
        (some (.jobj fields)) emsg (some (bname, lockPath pid)) 1 := by
    unfold process_message
    simp only [target_mismatch_false ht, Bool.false_eq_true, if_false,
      hd, hp, hb, hacq, hex]
  have htr : truthy (.jobj fields) = true := by
    cases fields with
    | nil => simp [dictGet?] at hp
    | cons a l => rfl
  have hrep : (exceptPath mode pub ((bname, lockPath pid) :: store)
      (some (.jobj fields)) emsg (some (bname, lockPath pid)) 1).reports =
      report_completion pub "FAILED" (.jobj fields) (some emsg) := by
    unfold exceptPath
    split <;> simp only [htr, if_true]
  refine ⟨?_, ?_, ?_, ?_⟩
  · rw [hred]
    apply exceptPath_ackD
  · rw [hred]
    unfold exceptPath
    split <;> rfl
  · rw [hred, hrep]
  · intro rep hmem
    rw [hred, hrep] at hmem
    exact report_completion_mem hmem

/-- Witness for the amended C5: a concrete raising executor leads to a
    positive acknowledgement. -/
theorem exec_failure_failed_report_and_ack_witness :
    (process_message "loop" (some "me") "me" (execRaises "boom") true
      ⟨some (.jobj [("productionId", .jstr "P1"), ("bucket", .jstr "b")]),
        none⟩ []).ackD = .ack :=
  (exec_failure_failed_report_and_ack "loop" (some "me") "me"
    (execRaises "boom") true
    ⟨some (.jobj [("productionId", .jstr "P1"), ("bucket", .jstr "b")]),
      none⟩ [] [("productionId", .jstr "P1"), ("bucket", .jstr "b")]
    (.jstr "P1") "b" "boom" rfl (fun _ h => nomatch h) rfl rfl
    (List.not_mem_nil _) rfl).1

/-- C7 counterexample: a fresh message whose body is valid JSON but
    lacks the required productionId field is not negative-acknowledged:
    the KeyError is handled by the generic failure path, which publishes
    a FAILED completion report (productionId UNKNOWN) and positively
    acknowledges. -/
theorem missing_field_acked_and_reported :
    safe_process_callback 0 "loop" (some "me") "me" (execRaises "x") true
      ⟨some (.jobj [("timestamp", .jnum 0), ("bucket", .jstr "b")]),
        none⟩ [] =
      ⟨[], .ack, [⟨.jstr "UNKNOWN", "FAILED", .jstr "",
        some "KeyError: productionId", .jnum 0, .jstr "UNKNOWN"⟩],
        0, none, 1⟩ := by
  have h : staleDecision 0 [("timestamp", .jnum 0), ("bucket", .jstr "b")]
      = some false := by
    norm_num [staleDecision, dictGetD, dictGet?, jNumeric]
  unfold safe_process_callback
  dsimp only
  rw [h]
  rfl

/-- C7 as amended: a message whose body fails to parse as JSON, or
    parses to something other than a JSON object, is negative-
    acknowledged by the handler with no lock acquired, no executor
    invocation and no report. (A well-formed JSON object missing the
    required productionId or bucket fields is instead handled by the
    failure path: FAILED report when possible, positive acknowledgement.) -/
theorem undecodable_body_nacked (now : ℚ) (mode : String)
    (wid : Option String) (inst : String) (ex : Executor) (pub : Bool)
    (msg : PubSubMessage) (store : Store)
    (h : ∀ fields, msg.decoded ≠ some (.jobj fields)) :
    safe_process_callback now mode wid inst ex pub msg store =
      nackResult store := by
  unfold safe_process_callback
  cases hdec : msg.decoded with
  | none => rfl
  | some v =>
    cases v with
    | jobj fields => exact absurd hdec (h fields)
    | jnull => rfl
    | jbool b => rfl
    | jnum q => rfl
    | jstr s => rfl
    | jarr xs => rfl

/-- Witness for the amended C7: an unparseable body is nacked. -/
theorem undecodable_body_nacked_witness :
    safe_process_callback 0 "loop" none "w" (execRaises "x") true
      ⟨none, none⟩ [] = nackResult [] :=
  undecodable_body_nacked 0 "loop" none "w" (execRaises "x") true
    ⟨none, none⟩ [] (fun _ h => nomatch h)

/-- The except branch is unaffected by the outcome of publication in
    every observable field except the list of delivered records, which
    is empty when publication fails. -/
theorem exceptPath_pub_fields (m : String) (st : Store)
    (p : Option JValue) (e : String) (l : Option (String × String))
    (ec : Nat) :
    (exceptPath m true st p e l ec).ackD =
      (exceptPath m false st p e l ec).ackD ∧
    (exceptPath m true st p e l ec).store =
      (exceptPath m false st p e l ec).store ∧
    (exceptPath m true st p e l ec).exited =
      (exceptPath m false st p e l ec).exited ∧
    (exceptPath m true st p e l ec).execCalls =
      (exceptPath m false st p e l ec).execCalls ∧
    (exceptPath m false st p e l ec).reports = [] := by
  unfold exceptPath
  split <;> refine ⟨rfl, rfl, rfl, rfl, ?_⟩ <;>
    · dsimp only
      cases p with
      | none => rfl
      | some pv =>
        dsimp only
        split
        · exact report_completion_pub_false _ _ _
        · rfl

/-- process_message is unaffected by the outcome of publication in every
    observable field except the delivered records, which are empty when
    publication fails. -/
theorem process_message_pub_independent (mode : String)
    (wid : Option String) (inst : String) (ex : Executor)
    (msg : PubSubMessage) (store : Store) :
    (process_message mode wid inst ex true msg store).ackD =
      (process_message mode wid inst ex false msg store).ackD ∧
    (process_message mode wid inst ex true msg store).store =
      (process_message mode wid inst ex false msg store).store ∧
    (process_message mode wid inst ex true msg store).exited =
      (process_message mode wid inst ex false msg store).exited ∧
    (process_message mode wid inst ex true msg store).execCalls =
      (process_message mode wid inst ex false msg store).execCalls ∧
    (process_message mode wid inst ex false msg store).reports = [] := by
  unfold process_message
  split
  · exact ⟨rfl, rfl, rfl, rfl, rfl⟩
  · split
    · exact exceptPath_pub_fields _ _ _ _ _ _
    · split
      · exact exceptPath_pub_fields _ _ _ _ _ _
      · split
        · exact exceptPath_pub_fields _ _ _ _ _ _
        · split
          · exact ⟨rfl, rfl, rfl, rfl, rfl⟩
          · split
            · exact exceptPath_pub_fields _ _ _ _ _ _
            · split
              · exact ⟨rfl, rfl, rfl, rfl,
                  report_completion_pub_false _ _ _⟩
              · exact ⟨rfl, rfl, rfl, rfl,
                  report_completion_pub_false _ _ _⟩
        · exact exceptPath_pub_fields _ _ _ _ _ _
    · exact exceptPath_pub_fields _ _ _ _ _ _

/-- C9: report_completion is total towards its caller. First, a failed
    publication changes nothing observable about the handling of a
    delivery - acknowledgement disposition, store, exit status and
    executor invocations are identical, only the delivered records
    differ (none when publication fails). Second, when the outputs key
    is present but maps to an empty list, building the record raises at
    the indexing step inside report_completion, the exception is
    swallowed, and no record is published at all. Third, the failure
    path always positively acknowledges no matter how reporting fared,
    so a reporting failure never changes the acknowledgement. -/
theorem report_reporting_is_isolated (now : ℚ) (mode : String)
    (wid : Option String) (inst : String) (ex : Executor)
    (msg : PubSubMessage) (store : Store) :
    ((safe_process_callback now mode wid inst ex true msg store).ackD =
      (safe_process_callback now mode wid inst ex false msg store).ackD ∧
     (safe_process_callback now mode wid inst ex true msg store).store =
      (safe_process_callback now mode wid inst ex false msg store).store ∧
     (safe_process_callback now mode wid inst ex true msg store).exited =
      (safe_process_callback now mode wid inst ex false msg store).exited ∧
     (safe_process_callback now mode wid inst ex true msg store).execCalls
      = (safe_process_callback now mode wid inst ex false msg
        store).execCalls ∧
     (safe_process_callback now mode wid inst ex false msg store).reports
      = []) ∧
    (∀ pub status1 fields err,
      dictGet? fields "outputs" = some (.jarr []) →
      report_completion pub status1 (.jobj fields) err = []) ∧
    (∀ m pub st p e l ec, (exceptPath m pub st p e l ec).ackD = .ack) := by
  refine ⟨?_, ?_, ?_⟩
  · unfold safe_process_callback
    split
    · split
      · exact ⟨rfl, rfl, rfl, rfl, rfl⟩
      · exact process_message_pub_independent mode wid inst ex msg store
      · exact ⟨rfl, rfl, rfl, rfl, rfl⟩
    · exact ⟨rfl, rfl, rfl, rfl, rfl⟩
    · exact ⟨rfl, rfl, rfl, rfl, rfl⟩
  · intro pub status1 fields err houts
    have h1 : dictGetD fields "outputs" (.jarr [.jstr ""]) = .jarr [] := by
      unfold dictGetD
      rw [houts]
      rfl
    unfold report_completion buildReport pyGetAttrGet
    dsimp only
    rw [h1]
    rfl
  · intro m pub st p e l ec
    exact exceptPath_ackD m pub st p e l ec

/-- Witness for C9: with outputs present but empty, nothing is
    published. -/
theorem report_reporting_is_isolated_witness :
    report_completion true "FAILED" (.jobj [("outputs", .jarr [])]) none
      = [] :=
  (report_reporting_is_isolated 0 "loop" none "w" (execRaises "x")
    ⟨none, none⟩ []).2.1 true "FAILED" [("outputs", .jarr [])] none rfl

/-- C1 counterexample: a single_task success-path run. The routine
    executes the job, publishes the COMPLETED report, positively
    acknowledges and runs cleanup, then calls os._exit(0) at line 209,
    inside the try block and before the finally block of lines 235 to
    240, so the lock release is skipped: the lock object this run
    created, locks/P1.lock, remains in the store (exit status 0
    recorded in the exited field). The failure path behaves the same
    way through os._exit(1) at line 233. This refutes the original C1
    for the single_task success and failure paths. -/
theorem single_task_success_lock_remains :
    process_message "single_task" (some "me") "me"
      (execReturns "/tmp/o" []) true
      ⟨some (.jobj [("productionId", .jstr "P1"), ("bucket", .jstr "b")]),
        none⟩ [] =
    ⟨[("b", "locks/P1.lock")], .ack,
      [⟨.jstr "P1", "COMPLETED", .jstr "", none, .jnum 0,
        .jstr "unknown"⟩],
      1, some 0, 1⟩ := rfl
